import Mathlib

/-!
# gomuks: `ui/messages/filemessage.go`

A shallow embedding of the `FileMessage` renderer of gomuks and the
properties of its width-aware layout (`CalculateBuffer`), preview fetch
(`DownloadPreview`), cloning (`Clone`) and notification line
(`NotificationContent`).

Conventions of the embedding:

* Go `int` values are `Int`; the only arithmetic in the file is a comparison
  and a division by three, neither of which can overflow.
* Byte slices live on an explicit heap (`Heap`), so that aliasing between a
  message and its clone can be stated. A slice is `nil` or the address of a
  backing array; the file never re-slices.
* Functions defined outside the file (the media container, the image decoder,
  the rasteriser, the text wrapper) are parameters.
* Calls that leave the file for the decoder, the rasteriser, the network or
  the debug log are recorded, in program order, in a list of `Call`s returned
  next to the new state.
-/

namespace Gomuks

/-! ## Bytes and the heap -/

/-- A Go `byte`. -/
abbrev Byte := Fin 256

/-- The heap of backing arrays; an address is a position in the list. -/
abbrev Heap := List (List Byte)

/-- A Go `[]byte` as used in the file: `none` is the nil slice, `some a` is a
slice over the whole backing array at address `a`. -/
abbrev Slice := Option Nat

/-- The bytes seen through a slice (`bytes.NewReader(s)` reads exactly these). -/
def Heap.read (h : Heap) (s : Slice) : List Byte :=
  match s with
  | none => []
  | some a => h.getD a []

/-- Go `len(s)`. -/
def len (h : Heap) (s : Slice) : Int :=
  ((h.read s).length : Int)

/-- Go `make([]byte, n)`: a fresh backing array of `n` zero bytes. -/
def make (h : Heap) (n : Int) : Heap × Slice :=
  (h ++ [List.replicate n.toNat 0], some h.length)

/-- Go `copy(dst, src)`: overwrites the first `min(len(dst), len(src))` bytes of
`dst` with those of `src`. -/
def copy (h : Heap) (dst src : Slice) : Heap :=
  match dst with
  | none => h
  | some a => h.set a ((h.read src).take (h.read dst).length ++ (h.read dst).drop (h.read src).length)

/-- An arbitrary later modification of the backing array at address `a`
(any sequence of byte writes through a slice amounts to one of these). -/
def Heap.store (h : Heap) (a : Nat) (bs : List Byte) : Heap :=
  h.set a bs

/-- A slice is valid in a heap when it is nil or points at an allocated array. -/
def Heap.valid (h : Heap) (s : Slice) : Bool :=
  match s with
  | none => true
  | some a => decide (a < h.length)

/-! ## Library types -/

/-- The type `mautrix.MessageType`, a string. -/
abbrev MessageType := String

/-- Constant `mautrix.MsgImage`. -/
def MsgImage : MessageType := "m.image"
/-- Constant `mautrix.MsgAudio`. -/
def MsgAudio : MessageType := "m.audio"
/-- Constant `mautrix.MsgVideo`. -/
def MsgVideo : MessageType := "m.video"
/-- Constant `mautrix.MsgFile`. -/
def MsgFile : MessageType := "m.file"

/-- The type `mautrix.ContentURI`: a homeserver name and a file identifier. -/
structure ContentURI where
  Homeserver : String
  FileID : String
deriving DecidableEq, Repr

/-- Method `ContentURI.IsEmpty`: one of the two components is missing. -/
def ContentURI.IsEmpty (uri : ContentURI) : Bool :=
  uri.Homeserver.length == 0 || uri.FileID.length == 0

/-- The colours of `tcell.Color` the file names, and any other. -/
inductive Color where
  | ColorDefault
  | ColorRed
  | Other (n : Nat)
deriving DecidableEq, Repr

/-- The value `tcell.Style` as far as the file sets it: a foreground and a
background colour. -/
structure Style where
  fg : Color
  bg : Color
deriving DecidableEq, Repr

/-- Constant `tcell.StyleDefault`. -/
def StyleDefault : Style := ⟨Color.ColorDefault, Color.ColorDefault⟩

/-- Method `Style.Foreground`. -/
def Style.Foreground (s : Style) (c : Color) : Style := { s with fg := c }

/-- Modelled from the spec: package `ui/messages/tstring`, whose `Cell` is one
styled glyph (StyledRow: "ordered sequence of (glyph, foreground colour,
background colour) cells"). -/
structure Cell where
  Char : Char
  Style : Style
deriving DecidableEq, Repr

/-- Modelled from the spec: `tstring.TString`, a row of styled cells. -/
abbrev TString := List Cell

/-- Modelled from the spec: `tstring.NewTString`, the text in the default style. -/
def NewTString (str : String) : TString :=
  str.toList.map fun c => ⟨c, StyleDefault⟩

/-- Modelled from the spec: `tstring.NewColorTString`, the text with the given
foreground colour. -/
def NewColorTString (str : String) (color : Color) : TString :=
  str.toList.map fun c => ⟨c, StyleDefault.Foreground color⟩

/-- The two fields of `config.UserPreferences` that the file reads. -/
structure UserPreferences where
  BareMessageView : Bool
  DisableImages : Bool
deriving DecidableEq, Repr

/-- The fields of `image.Config` that the file reads or could read. -/
structure Config where
  Width : Int
  Height : Int
deriving DecidableEq, Repr

/-- The background passed to the rasteriser (`color.Black` in the file). -/
inductive BgColor where
  | Black
  | White
deriving DecidableEq, Repr

/-- Interface `ifc.MatrixContainer`, the three methods the file calls.
`Download` yields the downloaded bytes or an error text. -/
structure MatrixContainer where
  GetDownloadURL : ContentURI → String
  Download : ContentURI → Except String (List Byte)
  GetCachePath : ContentURI → String

/-- The package-level functions the file calls, over the caller's `UIMessage`
type `U` and the rasteriser's image type `A`.

* `DecodeConfig` is `image.DecodeConfig`: Go returns the configuration and the
  error side by side, and the file reads the configuration whatever the error.
* `NewScaledFromReader` is `ansimage.NewScaledFromReader data y x bg`.
* `Render` is `(*ANSImage).Render`.
* `calculateBufferWithText` is the text wrapper of the message list. -/
structure Env (U A : Type) where
  DecodeConfig : List Byte → Config × Option String
  NewScaledFromReader : List Byte → Int → Int → BgColor → Except String A
  Render : A → List TString
  calculateBufferWithText : UserPreferences → TString → Int → U → List TString

/-- A call that leaves the file, with the arguments that matter here. -/
inductive Call where
  | Download (url : ContentURI)
  | DebugPrint (text : String)
  | DecodeConfig (data : List Byte)
  | NewScaledFromReader (data : List Byte) (y x : Int)
  | Render
deriving DecidableEq, Repr

/-! ## The message -/

/-- The struct `FileMessage` (lines 37-46). The field `Type` is spelled
`MsgType`, `Type` being reserved. -/
structure FileMessage where
  MsgType : MessageType
  Body : String
  URL : ContentURI
  Thumbnail : ContentURI
  imageData : Slice
  buffer : List TString
  matrix : MatrixContainer

/-- Method `Clone` (lines 61-71): a fresh byte array holding a copy of
`imageData`; `Body`, `URL`, `Thumbnail` and `matrix` copied; the fields the
literal does not name (`Type`, `buffer`) take their zero value. -/
def Clone (h : Heap) (msg : FileMessage) : Heap × FileMessage :=
  let (h1, data) := make h (len h msg.imageData)
  let h2 := copy h1 data msg.imageData
  (h2, { MsgType := "",
         Body := msg.Body,
         URL := msg.URL,
         Thumbnail := msg.Thumbnail,
         imageData := data,
         buffer := [],
         matrix := msg.matrix })

/-- Method `NotificationContent` (lines 73-86). -/
def NotificationContent (msg : FileMessage) : String :=
  if msg.MsgType = MsgImage then "Sent an image"
  else if msg.MsgType = MsgAudio then "Sent an audio file"
  else if msg.MsgType = MsgVideo then "Sent a video"
  else if msg.MsgType = MsgFile then "Sent a file"
  else "Sent a file"

/-- Method `PlainText` (lines 88-90). -/
def PlainText (msg : FileMessage) : String :=
  msg.Body ++ ": " ++ msg.matrix.GetDownloadURL msg.URL

/-- Method `ThumbnailPath` (lines 116-118). -/
def ThumbnailPath (msg : FileMessage) : String :=
  msg.matrix.GetCachePath msg.Thumbnail

/-- Lines 106-113 of `DownloadPreview`: the download of `url` and the store of
its bytes (in a backing array of their own). -/
def DownloadPreview.fetch (h : Heap) (msg : FileMessage) (url : ContentURI) :
    Heap × FileMessage × List Call :=
  match msg.matrix.Download url with
  | .error _ =>
    (h, msg, [Call.DebugPrint "Loading file:", Call.Download url,
              Call.DebugPrint "Failed to download file"])
  | .ok data =>
    (h ++ [data], { msg with imageData := some h.length },
      [Call.DebugPrint "Loading file:", Call.Download url, Call.DebugPrint "File loaded."])

/-- Method `DownloadPreview` (lines 96-114). -/
def DownloadPreview (h : Heap) (msg : FileMessage) : Heap × FileMessage × List Call :=
  let url := msg.Thumbnail
  if url.IsEmpty then
    if msg.MsgType = MsgImage ∧ ¬ msg.URL.IsEmpty then
      let msg1 := { msg with Thumbnail := msg.URL }
      DownloadPreview.fetch h msg1 msg1.Thumbnail
    else
      (h, msg, [])
  else
    DownloadPreview.fetch h msg url

/-- Method `CalculateBuffer` (lines 120-147), receiver first, then the
arguments in the order of the source. -/
def CalculateBuffer {U A : Type} (env : Env U A) (h : Heap) (msg : FileMessage)
    (prefs : UserPreferences) (width : Int) (uiMsg : U) : FileMessage × List Call :=
  if width < 2 then
    (msg, [])
  else if prefs.BareMessageView ∨ prefs.DisableImages ∨ len h msg.imageData = 0 then
    ({ msg with buffer :=
        env.calculateBufferWithText prefs (NewTString (PlainText msg)) width uiMsg }, [])
  else
    let data := h.read msg.imageData
    let (img, err) := env.DecodeConfig data
    let t1 := Call.DecodeConfig data ::
      (if err.isSome then [Call.DebugPrint "File could not be decoded:"] else [])
    let imgWidth := if img.Width > width then width.tdiv 3 else img.Width
    match env.NewScaledFromReader data 0 imgWidth BgColor.Black with
    | .error _ =>
      ({ msg with buffer := [NewColorTString "Failed to display image" Color.ColorRed] },
        t1 ++ [Call.NewScaledFromReader data 0 imgWidth,
               Call.DebugPrint "Failed to display image:"])
    | .ok ansFile =>
      ({ msg with buffer := env.Render ansFile },
        t1 ++ [Call.NewScaledFromReader data 0 imgWidth, Call.Render])

/-- Method `Height` (lines 149-151). -/
def Height (msg : FileMessage) : Int :=
  (msg.buffer.length : Int)

/-! ## Reading the call record -/

/-- Whether a call goes to the image decoder or the rasteriser. -/
def Call.isDecoder : Call → Bool
  | .DecodeConfig _ => true
  | .NewScaledFromReader _ _ _ => true
  | .Render => true
  | _ => false

/-- The widths requested from the rasteriser, in call order. -/
def requestedWidths : List Call → List Int
  | [] => []
  | .NewScaledFromReader _ _ x :: cs => x :: requestedWidths cs
  | _ :: cs => requestedWidths cs

/-- The URIs requested from the media container, in call order. -/
def requestedURIs : List Call → List ContentURI
  | [] => []
  | .Download url :: cs => url :: requestedURIs cs
  | _ :: cs => requestedURIs cs


/-! ## Test doubles

A toy image format for the examples: the three bytes `[1, w, h]` are a `w × h`
image and everything else is rejected by the decoder. -/

/-- A media container: the file named "missing" cannot be downloaded, any
other file is a 60 × 40 image. -/
def demoMatrix : MatrixContainer where
  GetDownloadURL uri := "https://" ++ uri.Homeserver ++ "/dl/" ++ uri.FileID
  Download uri := if uri.FileID = "missing" then .error "not found" else .ok [1, 60, 40]
  GetCachePath uri := "/cache/" ++ uri.FileID

/-- A decoder and rasteriser for the toy format, with a rasterised image
standing for its width, and a text wrapper that cuts the text at the width. -/
def demoEnv : Env Unit Int where
  DecodeConfig data :=
    match data with
    | [1, w, h] => (⟨(w.val : Int), (h.val : Int)⟩, none)
    | _ => (⟨0, 0⟩, some "image: unknown format")
  NewScaledFromReader data _ x _ :=
    match data with
    | [1, _, _] => .ok x
    | _ => .error "image: unknown format"
  Render a := [List.replicate a.toNat ⟨'▀', StyleDefault⟩]
  calculateBufferWithText _ text width _ := [text.take width.toNat]

/-- Preferences with every option off. -/
def demoPrefs : UserPreferences := ⟨false, false⟩

/-- An image message without thumbnail, as `NewFileMessage` builds it. -/
def demoImage : FileMessage :=
  { MsgType := MsgImage, Body := "cat.png", URL := ⟨"s", "ct"⟩, Thumbnail := ⟨"", ""⟩,
    imageData := none, buffer := [], matrix := demoMatrix }

/-- A video message with a thumbnail, as `NewFileMessage` builds it. -/
def demoVideo : FileMessage :=
  { MsgType := MsgVideo, Body := "clip.mp4", URL := ⟨"s", "vd"⟩, Thumbnail := ⟨"s", "th"⟩,
    imageData := none, buffer := [], matrix := demoMatrix }

/-- A generic file message, as `NewFileMessage` builds it. -/
def demoFile : FileMessage :=
  { MsgType := MsgFile, Body := "budget.pdf", URL := ⟨"s", "ab"⟩, Thumbnail := ⟨"", ""⟩,
    imageData := none, buffer := [], matrix := demoMatrix }

/-! ## Properties -/

/-- C1: for a width of at least 2, when bare mode or disable-images is on or
the byte buffer is empty, `CalculateBuffer` sets the cached layout to the text
wrapper applied to `PlainText()` at that width, makes no call to the decoder or
rasteriser, and the outcome is the same for any other heap contents and any
other decoder and rasteriser. -/
theorem CalculateBuffer_fallback {U A : Type} (env : Env U A) (h : Heap) (msg : FileMessage)
    (prefs : UserPreferences) (w : Int) (uiMsg : U) (hw : 2 ≤ w)
    (hc : prefs.BareMessageView = true ∨ prefs.DisableImages = true ∨
      len h msg.imageData = 0) :
    (CalculateBuffer env h msg prefs w uiMsg).1.buffer =
        env.calculateBufferWithText prefs (NewTString (PlainText msg)) w uiMsg
      ∧ (CalculateBuffer env h msg prefs w uiMsg).2 = []
      ∧ ∀ (env2 : Env U A) (h2 : Heap),
          env2.calculateBufferWithText = env.calculateBufferWithText →
          (prefs.BareMessageView = true ∨ prefs.DisableImages = true ∨
            len h2 msg.imageData = 0) →
          CalculateBuffer env2 h2 msg prefs w uiMsg = CalculateBuffer env h msg prefs w uiMsg := by
  have hw2 : ¬ w < 2 := by omega
  refine ⟨?_, ?_, ?_⟩
  · simp [CalculateBuffer, hw2, hc]
  · simp [CalculateBuffer, hw2, hc]
  · intro env2 h2 he hc2
    simp [CalculateBuffer, hw2, hc, hc2, he]

/-- C1, at an input: an image message holding downloaded bytes, laid out at
width 40 with disable-images on. -/
theorem CalculateBuffer_fallback_witness :
    (CalculateBuffer demoEnv (DownloadPreview [] demoImage).1 (DownloadPreview [] demoImage).2.1
        ⟨false, true⟩ 40 ()).1.buffer = [NewTString "cat.png: https://s/dl/ct"]
      ∧ (CalculateBuffer demoEnv (DownloadPreview [] demoImage).1
          (DownloadPreview [] demoImage).2.1 ⟨false, true⟩ 40 ()).2 = [] := by
  have key := CalculateBuffer_fallback demoEnv (DownloadPreview [] demoImage).1
    (DownloadPreview [] demoImage).2.1 ⟨false, true⟩ 40 () (by decide) (Or.inr (Or.inl rfl))
  refine ⟨?_, key.2.1⟩
  rw [key.1]
  decide

/-- C2, as stated, fails: a video message whose thumbnail has been downloaded
is, at width 40 with both options off, passed to the decoder and rasteriser, and
its layout is the rasterised thumbnail, not the plain-text fallback. -/
theorem CalculateBuffer_video_thumbnail_decoded :
    (DownloadPreview [] demoVideo).2.1.MsgType ≠ MsgImage
      ∧ (CalculateBuffer demoEnv (DownloadPreview [] demoVideo).1
          (DownloadPreview [] demoVideo).2.1 demoPrefs 40 ()).2 =
        [Call.DecodeConfig [1, 60, 40], Call.NewScaledFromReader [1, 60, 40] 0 13, Call.Render]
      ∧ (CalculateBuffer demoEnv (DownloadPreview [] demoVideo).1
          (DownloadPreview [] demoVideo).2.1 demoPrefs 40 ()).1.buffer ≠
        demoEnv.calculateBufferWithText demoPrefs
          (NewTString (PlainText (DownloadPreview [] demoVideo).2.1)) 40 () := by
  decide

/-- The width `CalculateBuffer` asks of the rasteriser once it is past the
fallback gate: a third of the target width when the decoded width exceeds the
target width, the decoded width otherwise. -/
theorem CalculateBuffer_requested {U A : Type} (env : Env U A) (h : Heap) (msg : FileMessage)
    (prefs : UserPreferences) (w : Int) (uiMsg : U) (hw : 2 ≤ w)
    (hb : prefs.BareMessageView = false) (hd : prefs.DisableImages = false)
    (hl : len h msg.imageData ≠ 0) :
    requestedWidths (CalculateBuffer env h msg prefs w uiMsg).2 =
      [if (env.DecodeConfig (h.read msg.imageData)).1.Width > w then w / 3
        else (env.DecodeConfig (h.read msg.imageData)).1.Width] := by
  have hw2 : ¬ w < 2 := by omega
  have hdiv : w.tdiv 3 = w / 3 := Int.tdiv_eq_ediv (by omega) (by decide)
  simp only [CalculateBuffer, hw2, hb, hd, hl, if_false, Bool.false_eq_true, or_self, hdiv]
  split <;> split <;> simp [requestedWidths]

/-- C2, amended: for a message whose kind is not Image and a width of at least
2, (a) when bare mode or disable-images is on or the byte buffer is empty the
cached layout is the plain-text fallback and no call goes to the decoder or
rasteriser; (b) without a thumbnail URI, `DownloadPreview` downloads nothing and
leaves heap and message as they were; (c) with both options off and a non-empty
byte buffer the first call goes to the decoder on the bytes of the message, the
rasteriser is asked once, for a third of the width when the decoded width
exceeds it and for the decoded width otherwise, and the cached layout is the
rendering of what the rasteriser returns, or the red error row when it fails;
(d) `CalculateBuffer` does not look at the kind: with any other kind in its
place, Image included, the layout, every other field and the calls made are the
same. -/
theorem CalculateBuffer_non_image {U A : Type} (env : Env U A) (h : Heap) (msg : FileMessage)
    (prefs : UserPreferences) (w : Int) (uiMsg : U) (hk : msg.MsgType ≠ MsgImage)
    (hw : 2 ≤ w) :
    ((prefs.BareMessageView = true ∨ prefs.DisableImages = true ∨ len h msg.imageData = 0) →
        (CalculateBuffer env h msg prefs w uiMsg).1.buffer =
            env.calculateBufferWithText prefs (NewTString (PlainText msg)) w uiMsg
          ∧ (CalculateBuffer env h msg prefs w uiMsg).2.all (fun c => !c.isDecoder) = true)
      ∧ (msg.Thumbnail.IsEmpty = true → DownloadPreview h msg = (h, msg, []))
      ∧ (prefs.BareMessageView = false → prefs.DisableImages = false →
          len h msg.imageData ≠ 0 →
          (CalculateBuffer env h msg prefs w uiMsg).2.head? =
              some (Call.DecodeConfig (h.read msg.imageData))
            ∧ requestedWidths (CalculateBuffer env h msg prefs w uiMsg).2 =
                [if (env.DecodeConfig (h.read msg.imageData)).1.Width > w then w / 3
                  else (env.DecodeConfig (h.read msg.imageData)).1.Width]
            ∧ (CalculateBuffer env h msg prefs w uiMsg).1.buffer =
                (match env.NewScaledFromReader (h.read msg.imageData) 0
                    (if (env.DecodeConfig (h.read msg.imageData)).1.Width > w then w / 3
                      else (env.DecodeConfig (h.read msg.imageData)).1.Width)
                    BgColor.Black with
                  | .ok ansFile => env.Render ansFile
                  | .error _ => [NewColorTString "Failed to display image" Color.ColorRed]))
      ∧ (∀ k : MessageType,
          CalculateBuffer env h { msg with MsgType := k } prefs w uiMsg =
            ({ (CalculateBuffer env h msg prefs w uiMsg).1 with MsgType := k },
              (CalculateBuffer env h msg prefs w uiMsg).2)) := by
  have hw2 : ¬ w < 2 := by omega
  have hdiv : w.tdiv 3 = w / 3 := Int.tdiv_eq_ediv (by omega) (by decide)
  refine ⟨?_, ?_, ?_, ?_⟩
  · intro hc
    simp [CalculateBuffer, hw2, hc]
  · intro ht
    simp [DownloadPreview, ht, hk]
  · intro hb hd hl
    refine ⟨?_, CalculateBuffer_requested env h msg prefs w uiMsg hw hb hd hl, ?_⟩
    · simp only [CalculateBuffer, hw2, hb, hd, hl, if_false, Bool.false_eq_true, or_self]
      split <;> rfl
    · simp only [CalculateBuffer, hw2, hb, hd, hl, if_false, Bool.false_eq_true, or_self, hdiv]
      split
      · rename_i e heq
        have h2 : env.NewScaledFromReader (h.read msg.imageData) 0
            (if (env.DecodeConfig (h.read msg.imageData)).1.Width > w then w / 3
              else (env.DecodeConfig (h.read msg.imageData)).1.Width) BgColor.Black =
            Except.error e := heq
        rw [h2]
      · rename_i a heq
        have h2 : env.NewScaledFromReader (h.read msg.imageData) 0
            (if (env.DecodeConfig (h.read msg.imageData)).1.Width > w then w / 3
              else (env.DecodeConfig (h.read msg.imageData)).1.Width) BgColor.Black =
            Except.ok a := heq
        rw [h2]
  · intro k
    simp only [CalculateBuffer, hw2, if_false]
    split
    · rfl
    · split <;> rfl

/-- C2 amended, at inputs: a generic file without thumbnail, after
`DownloadPreview`, is laid out as text at width 40; a video holding thumbnail
bytes of a 60 pixel wide picture has them sent to the decoder, the rasteriser is
asked for width 13, and the layout is the rendering, the same as for the
message with the kind Image in place of Video. -/
theorem CalculateBuffer_non_image_witness :
    DownloadPreview [] demoFile = ([], demoFile, [])
      ∧ (CalculateBuffer demoEnv [] demoFile demoPrefs 40 ()).1.buffer =
          [NewTString "budget.pdf: https://s/dl/ab"]
      ∧ (CalculateBuffer demoEnv [[1, 60, 40]] { demoVideo with imageData := some 0 }
          demoPrefs 40 ()).2.head? = some (Call.DecodeConfig [1, 60, 40])
      ∧ requestedWidths (CalculateBuffer demoEnv [[1, 60, 40]]
          { demoVideo with imageData := some 0 } demoPrefs 40 ()).2 = [13]
      ∧ (CalculateBuffer demoEnv [[1, 60, 40]] { demoVideo with imageData := some 0 }
          demoPrefs 40 ()).1.buffer = [List.replicate 13 ⟨'▀', StyleDefault⟩]
      ∧ (CalculateBuffer demoEnv [[1, 60, 40]]
          { demoVideo with imageData := some 0, MsgType := MsgImage } demoPrefs 40 ()).1.buffer =
        (CalculateBuffer demoEnv [[1, 60, 40]] { demoVideo with imageData := some 0 }
          demoPrefs 40 ()).1.buffer := by
  have key := CalculateBuffer_non_image demoEnv [] demoFile demoPrefs 40 ()
    (by decide) (by decide)
  have key2 := CalculateBuffer_non_image demoEnv [[1, 60, 40]]
    { demoVideo with imageData := some 0 } demoPrefs 40 () (by decide) (by decide)
  have c := key2.2.2.1 rfl rfl (by decide)
  refine ⟨key.2.1 (by decide), ?_, c.1, ?_, ?_, ?_⟩
  · rw [(key.1 (Or.inr (Or.inr (by decide)))).1]
    decide
  · rw [c.2.1]
    decide
  · rw [c.2.2]
    decide
  · exact congrArg (fun r => r.1.buffer) (key2.2.2.2 MsgImage)

/-- C3, as stated, fails: a generic file laid out at width 40 holds one row, and
a following `CalculateBuffer` at width 1 leaves that row in place, so `Height()`
is 1, not 0. -/
theorem CalculateBuffer_narrow_keeps_layout :
    Height (CalculateBuffer demoEnv [] demoFile demoPrefs 40 ()).1 = 1
      ∧ Height (CalculateBuffer demoEnv []
          (CalculateBuffer demoEnv [] demoFile demoPrefs 40 ()).1 demoPrefs 1 ()).1 = 1
      ∧ ¬ Height (CalculateBuffer demoEnv []
          (CalculateBuffer demoEnv [] demoFile demoPrefs 40 ()).1 demoPrefs 1 ()).1 = 0 := by
  decide

/-- C3, amended: for a width below 2, `CalculateBuffer` returns at once: the
message, its cached layout and `Height()` are what they were and no call is
made; `Height()` is 0 afterwards when the layout was empty before, as it is for
a message that was never laid out. -/
theorem CalculateBuffer_narrow {U A : Type} (env : Env U A) (h : Heap) (msg : FileMessage)
    (prefs : UserPreferences) (w : Int) (uiMsg : U) (hw : w < 2) :
    CalculateBuffer env h msg prefs w uiMsg = (msg, [])
      ∧ Height (CalculateBuffer env h msg prefs w uiMsg).1 = Height msg
      ∧ (msg.buffer = [] → Height (CalculateBuffer env h msg prefs w uiMsg).1 = 0) := by
  have e : CalculateBuffer env h msg prefs w uiMsg = (msg, []) := by
    simp [CalculateBuffer, hw]
  refine ⟨e, by rw [e], ?_⟩
  intro hb
  rw [e]
  simp [Height, hb]

/-- C3 amended, at an input: a fresh image message at width 1. -/
theorem CalculateBuffer_narrow_witness :
    (1 : Int) < 2 ∧ Height (CalculateBuffer demoEnv [] demoImage demoPrefs 1 ()).1 = 0 :=
  ⟨by decide, (CalculateBuffer_narrow demoEnv [] demoImage demoPrefs 1 () (by decide)).2.2 rfl⟩

/-- C4 fails on the code: `Clone` leaves `Type` out of the struct
literal, so the clone of every message has the empty kind and announces itself
as "Sent a file"; `Body`, `URL` and `Thumbnail` are copied. For the image
message `demoImage` the original says "Sent an image" and its clone does not. -/
theorem Clone_drops_Type :
    (∀ (h : Heap) (msg : FileMessage),
        (Clone h msg).2.MsgType = ""
          ∧ NotificationContent (Clone h msg).2 = "Sent a file"
          ∧ (Clone h msg).2.Body = msg.Body
          ∧ (Clone h msg).2.URL = msg.URL
          ∧ (Clone h msg).2.Thumbnail = msg.Thumbnail)
      ∧ NotificationContent demoImage = "Sent an image"
      ∧ (Clone [] demoImage).2.MsgType ≠ demoImage.MsgType
      ∧ NotificationContent (Clone [] demoImage).2 ≠ NotificationContent demoImage := by
  refine ⟨?_, by decide, by decide, by decide⟩
  intro h msg
  refine ⟨rfl, ?_, rfl, rfl, rfl⟩
  have e : (Clone h msg).2.MsgType = "" := rfl
  unfold NotificationContent
  rw [e]
  decide

/-- C5, as stated, fails: for an image message without thumbnail URI,
`DownloadPreview` stores the source URI in `Thumbnail`, also when the download
fails. -/
theorem DownloadPreview_sets_Thumbnail :
    demoImage.Thumbnail = ⟨"", ""⟩
      ∧ (DownloadPreview [] demoImage).2.1.Thumbnail = ⟨"s", "ct"⟩
      ∧ (DownloadPreview [] demoImage).2.1.Thumbnail ≠ demoImage.Thumbnail
      ∧ (DownloadPreview [] { demoImage with URL := ⟨"s", "missing"⟩ }).2.1.Thumbnail
          = ⟨"s", "missing"⟩
      ∧ (DownloadPreview [] { demoImage with URL := ⟨"s", "missing"⟩ }).2.1.imageData = none := by
  decide

/-- C5, amended: `DownloadPreview` leaves `Type`, `Body` and `URL` unchanged
whether the download succeeds, fails or is skipped; `Thumbnail` is unchanged
unless it is empty and the message is an image with a non-empty `URL`, in which
case it becomes `URL`; the URI requested is the `Thumbnail` after the call when
that is non-empty, and none otherwise; a second call, on any heap and with any
media container, requests what the first one did. -/
theorem DownloadPreview_frame (h : Heap) (msg : FileMessage) :
    (DownloadPreview h msg).2.1.MsgType = msg.MsgType
      ∧ (DownloadPreview h msg).2.1.Body = msg.Body
      ∧ (DownloadPreview h msg).2.1.URL = msg.URL
      ∧ (DownloadPreview h msg).2.1.Thumbnail =
          (if msg.Thumbnail.IsEmpty = true ∧ msg.MsgType = MsgImage ∧ msg.URL.IsEmpty = false
            then msg.URL else msg.Thumbnail)
      ∧ requestedURIs (DownloadPreview h msg).2.2 =
          (if (DownloadPreview h msg).2.1.Thumbnail.IsEmpty = true then []
            else [(DownloadPreview h msg).2.1.Thumbnail])
      ∧ ∀ (h2 : Heap) (mx2 : MatrixContainer),
          requestedURIs
              (DownloadPreview h2 { (DownloadPreview h msg).2.1 with matrix := mx2 }).2.2 =
            requestedURIs (DownloadPreview h msg).2.2 := by
  have fetch_fields : ∀ (h : Heap) (m : FileMessage) (u : ContentURI),
      (DownloadPreview.fetch h m u).2.1.MsgType = m.MsgType
        ∧ (DownloadPreview.fetch h m u).2.1.Body = m.Body
        ∧ (DownloadPreview.fetch h m u).2.1.URL = m.URL
        ∧ (DownloadPreview.fetch h m u).2.1.Thumbnail = m.Thumbnail
        ∧ requestedURIs (DownloadPreview.fetch h m u).2.2 = [u] := by
    intro h m u
    unfold DownloadPreview.fetch
    split <;> simp [requestedURIs]
  by_cases ht : msg.Thumbnail.IsEmpty = true
  · by_cases hi : msg.MsgType = MsgImage ∧ msg.URL.IsEmpty = false
    · obtain ⟨hi1, hi2⟩ := hi
      have e : DownloadPreview h msg =
          DownloadPreview.fetch h { msg with Thumbnail := msg.URL } msg.URL := by
        simp [DownloadPreview, ht, hi1, hi2]
      obtain ⟨f1, f2, f3, f4, f5⟩ := fetch_fields h { msg with Thumbnail := msg.URL } msg.URL
      rw [e]
      refine ⟨f1, f2, f3, ?_, ?_, ?_⟩
      · rw [f4]; simp [ht, hi1, hi2]
      · rw [f5, f4]; simp [hi2]
      · intro h2 mx2
        have e2 : DownloadPreview h2
            { (DownloadPreview.fetch h { msg with Thumbnail := msg.URL } msg.URL).2.1
              with matrix := mx2 } =
            DownloadPreview.fetch h2
              { (DownloadPreview.fetch h { msg with Thumbnail := msg.URL } msg.URL).2.1
                with matrix := mx2 } msg.URL := by
          simp [DownloadPreview, f4, hi2]
        rw [e2, f5]
        exact (fetch_fields h2 _ msg.URL).2.2.2.2
    · have e : DownloadPreview h msg = (h, msg, []) := by
        simp only [DownloadPreview, ht, if_true]
        rw [if_neg]
        intro hc
        exact hi ⟨hc.1, by simpa using hc.2⟩
      rw [e]
      refine ⟨rfl, rfl, rfl, ?_, ?_, ?_⟩
      · simp only []
        rw [if_neg]
        intro hc
        exact hi hc.2
      · simp [ht, requestedURIs]
      · intro h2 mx2
        have e2 : DownloadPreview h2 { msg with matrix := mx2 } =
            (h2, { msg with matrix := mx2 }, []) := by
          simp only [DownloadPreview, ht, if_true]
          rw [if_neg]
          intro hc
          exact hi ⟨hc.1, by simpa using hc.2⟩
        simp only []
        rw [e2]
  · have e : DownloadPreview h msg = DownloadPreview.fetch h msg msg.Thumbnail := by
      simp [DownloadPreview, ht]
    obtain ⟨f1, f2, f3, f4, f5⟩ := fetch_fields h msg msg.Thumbnail
    rw [e]
    refine ⟨f1, f2, f3, ?_, ?_, ?_⟩
    · rw [f4]; simp [ht]
    · rw [f5, f4]; simp [ht]
    · intro h2 mx2
      have e2 : DownloadPreview h2
          { (DownloadPreview.fetch h msg msg.Thumbnail).2.1 with matrix := mx2 } =
          DownloadPreview.fetch h2
            { (DownloadPreview.fetch h msg msg.Thumbnail).2.1 with matrix := mx2 }
            msg.Thumbnail := by
        simp [DownloadPreview, f4, ht]
      rw [e2, f5]
      exact (fetch_fields h2 _ msg.Thumbnail).2.2.2.2

/-- Reading an allocated array is unaffected by arrays allocated after it. -/
theorem getD_append_alloc (h t : Heap) (a : Nat) (ha : a < h.length) :
    (h ++ t).getD a [] = h.getD a [] := by
  simp [List.getD_eq_getElem?_getD, List.getElem?_append_left ha]

/-- Writing the array just allocated and reading it back. -/
theorem getD_set_fresh (h : Heap) (x y : List Byte) :
    ((h ++ [x]).set h.length y).getD h.length [] = y := by
  simp [List.getD_eq_getElem?_getD]

/-- Writing one array leaves every other array as it was. -/
theorem getD_set_other (h : Heap) (a b : Nat) (x : List Byte) (hab : a ≠ b) :
    (h.set a x).getD b [] = h.getD b [] := by
  simp [List.getD_eq_getElem?_getD, List.getElem?_set_ne hab]

/-- The heap and the slice that `Clone` produces, spelled out. -/
theorem Clone_heap (h : Heap) (msg : FileMessage) (hv : h.valid msg.imageData = true) :
    (Clone h msg).2.imageData = some h.length
      ∧ (Clone h msg).1 =
          (h ++ [List.replicate (h.read msg.imageData).length 0]).set h.length
            (h.read msg.imageData) := by
  have hsrc : (h ++ [List.replicate (h.read msg.imageData).length (0 : Byte)]).read
      msg.imageData = h.read msg.imageData := by
    cases hs : msg.imageData with
    | none => rfl
    | some a =>
      rw [hs] at hv
      have ha : a < h.length := by simpa [Heap.valid] using hv
      simp only [Heap.read]
      exact getD_append_alloc h _ a ha
  have hdst : (h ++ [List.replicate (h.read msg.imageData).length (0 : Byte)]).read
      (some h.length) = List.replicate (h.read msg.imageData).length 0 := by
    simp [Heap.read, List.getD_eq_getElem?_getD]
  refine ⟨by simp [Clone, make], ?_⟩
  simp only [Clone, make, len, Int.toNat_ofNat, copy]
  rw [hsrc, hdst]
  simp

/-- The heap after `DownloadPreview` is the heap before it, or that heap with one
more array, so every slice that was valid reads as before. -/
theorem DownloadPreview_read (h : Heap) (msg : FileMessage) (s : Slice)
    (hv : h.valid s = true) : (DownloadPreview h msg).1.read s = h.read s := by
  have hfetch : ∀ (m : FileMessage) (u : ContentURI),
      (DownloadPreview.fetch h m u).1.read s = h.read s := by
    intro m u
    unfold DownloadPreview.fetch
    split
    · rfl
    · cases s with
      | none => rfl
      | some a =>
        have ha : a < h.length := by simpa [Heap.valid] using hv
        simp only [Heap.read]
        exact getD_append_alloc h _ a ha
  unfold DownloadPreview
  simp only []
  split
  · split
    · exact hfetch _ _
    · rfl
  · exact hfetch _ _

/-- C6: for a message whose byte slice is nil or allocated, the bytes of
`Clone()` equal the original's, byte for byte and in length; a nil slice clones
to a non-nil empty one; the clone's slice is another backing array than the
original's, cloning leaves the original's bytes as they were, and afterwards
overwriting the backing array of either message with any bytes, or replacing
the bytes of either message by a download, leaves the bytes of the other
unchanged. -/
theorem Clone_bytes (h : Heap) (msg : FileMessage) (hv : h.valid msg.imageData = true) :
    (Clone h msg).1.read (Clone h msg).2.imageData = h.read msg.imageData
      ∧ len (Clone h msg).1 (Clone h msg).2.imageData = len h msg.imageData
      ∧ (msg.imageData = none →
          (Clone h msg).2.imageData ≠ none ∧ (Clone h msg).1.read (Clone h msg).2.imageData = [])
      ∧ (Clone h msg).2.imageData ≠ msg.imageData
      ∧ (Clone h msg).1.read msg.imageData = h.read msg.imageData
      ∧ (∀ (a : Nat) (bs : List Byte), (Clone h msg).2.imageData = some a →
          ((Clone h msg).1.store a bs).read msg.imageData = h.read msg.imageData)
      ∧ (∀ (a : Nat) (bs : List Byte), msg.imageData = some a →
          ((Clone h msg).1.store a bs).read (Clone h msg).2.imageData = h.read msg.imageData)
      ∧ (DownloadPreview (Clone h msg).1 (Clone h msg).2).1.read msg.imageData =
          h.read msg.imageData
      ∧ (DownloadPreview (Clone h msg).1 msg).1.read (Clone h msg).2.imageData =
          h.read msg.imageData := by
  obtain ⟨hd, hh⟩ := Clone_heap h msg hv
  have hne : ∀ a, msg.imageData = some a → a < h.length := by
    intro a ha
    rw [ha] at hv
    simpa [Heap.valid] using hv
  have hclone : (Clone h msg).1.read (Clone h msg).2.imageData = h.read msg.imageData := by
    rw [hd, hh]
    simp only [Heap.read]
    exact getD_set_fresh h _ _
  have horig : (Clone h msg).1.read msg.imageData = h.read msg.imageData := by
    rw [hh]
    cases hs : msg.imageData with
    | none => rfl
    | some a =>
      have ha := hne a hs
      simp only [Heap.read]
      rw [getD_set_other _ _ _ _ (by omega), getD_append_alloc h _ a ha]
  have hlen : (Clone h msg).1.length = h.length + 1 := by
    rw [hh]
    simp
  have hvo : (Clone h msg).1.valid msg.imageData = true := by
    cases hs : msg.imageData with
    | none => rfl
    | some a =>
      have ha := hne a hs
      simp only [Heap.valid, hlen, decide_eq_true_eq]
      omega
  have hvc : (Clone h msg).1.valid (Clone h msg).2.imageData = true := by
    rw [hd]
    simp only [Heap.valid, hlen, decide_eq_true_eq]
    omega
  refine ⟨hclone, by simp only [len, hclone], ?_, ?_, horig, ?_, ?_, ?_, ?_⟩
  · intro hn
    refine ⟨by rw [hd]; simp, ?_⟩
    rw [hclone, hn]
    rfl
  · rw [hd]
    intro hc
    have := hne h.length hc.symm
    omega
  · intro a bs ha
    rw [hd] at ha
    have hah : h.length = a := by simpa using ha
    cases hs : msg.imageData with
    | none => rfl
    | some b =>
      have hb := hne b hs
      have e := horig
      rw [hs] at e
      simp only [Heap.read, Heap.store] at e ⊢
      rw [getD_set_other _ _ _ _ (by omega), e]
  · intro a bs ha
    have hb := hne a ha
    have e := hclone
    rw [hd] at e ⊢
    simp only [Heap.read, Heap.store] at e ⊢
    rw [getD_set_other _ _ _ _ (by omega), e]
  · rw [DownloadPreview_read _ _ _ hvo, horig]
  · rw [DownloadPreview_read _ _ _ hvc, hclone]

/-- C6, at an input: a message holding the three bytes `[1, 60, 40]` is cloned
and the original's backing array is then overwritten with `[9]`. -/
theorem Clone_bytes_witness :
    Heap.valid [[1, 60, 40]] (some 0) = true
      ∧ (Clone [[1, 60, 40]] { demoImage with imageData := some 0 }).2.imageData = some 1
      ∧ ((Clone [[1, 60, 40]] { demoImage with imageData := some 0 }).1.store 0 [9]).read
          (Clone [[1, 60, 40]] { demoImage with imageData := some 0 }).2.imageData
          = [1, 60, 40] :=
  ⟨by decide, by decide,
    (Clone_bytes [[1, 60, 40]] { demoImage with imageData := some 0 } (by decide)).2.2.2.2.2.2.1
      0 [9] rfl⟩

/-- C7: for a width `w` of at least 2, both options off and a non-empty byte
buffer that decodes to an image of pixel width `s`, the single width requested
from the rasteriser is `w / 3` when `s > 3 * w`, and `s` when `s < w`. -/
theorem CalculateBuffer_width_outside {U A : Type} (env : Env U A) (h : Heap)
    (msg : FileMessage) (prefs : UserPreferences) (w s : Int) (uiMsg : U) (hw : 2 ≤ w)
    (hb : prefs.BareMessageView = false) (hd : prefs.DisableImages = false)
    (hl : len h msg.imageData ≠ 0)
    (hs : (env.DecodeConfig (h.read msg.imageData)).1.Width = s) :
    (s > 3 * w → requestedWidths (CalculateBuffer env h msg prefs w uiMsg).2 = [w / 3])
      ∧ (s < w → requestedWidths (CalculateBuffer env h msg prefs w uiMsg).2 = [s]) := by
  rw [CalculateBuffer_requested env h msg prefs w uiMsg hw hb hd hl, hs]
  constructor
  · intro h3
    rw [if_pos (by omega)]
  · intro h1
    rw [if_neg (by omega)]

/-- C7, at inputs: a 200 pixel wide image at width 30 is requested at width 10,
a 20 pixel wide image at width 30 is requested at width 20. -/
theorem CalculateBuffer_width_outside_witness :
    requestedWidths (CalculateBuffer demoEnv [[1, 200, 200]]
        { demoImage with imageData := some 0 } demoPrefs 30 ()).2 = [10]
      ∧ requestedWidths (CalculateBuffer demoEnv [[1, 20, 20]]
        { demoImage with imageData := some 0 } demoPrefs 30 ()).2 = [20] :=
  ⟨(CalculateBuffer_width_outside demoEnv [[1, 200, 200]]
      { demoImage with imageData := some 0 } demoPrefs 30 200 () (by decide) rfl rfl
      (by decide) (by decide)).1 (by decide),
    (CalculateBuffer_width_outside demoEnv [[1, 20, 20]]
      { demoImage with imageData := some 0 } demoPrefs 30 20 () (by decide) rfl rfl
      (by decide) (by decide)).2 (by decide)⟩

/-- C8, as stated, fails: a 60 pixel wide image at target width 30 lies
between `w` and `3 * w`, and the width requested from the rasteriser is 10, not
30. -/
theorem CalculateBuffer_width_between_third :
    (demoEnv.DecodeConfig [1, 60, 40]).1.Width = 60
      ∧ (30 : Int) ≤ 60 ∧ (60 : Int) ≤ 3 * 30
      ∧ requestedWidths (CalculateBuffer demoEnv [[1, 60, 40]]
          { demoImage with imageData := some 0 } demoPrefs 30 ()).2 = [10]
      ∧ requestedWidths (CalculateBuffer demoEnv [[1, 60, 40]]
          { demoImage with imageData := some 0 } demoPrefs 30 ()).2 ≠ [30] := by
  decide

/-- C8, amended: for a width `w` of at least 2, both options off and a
non-empty byte buffer that decodes to an image of pixel width `s` with `w ≤ s`
(so in particular for `w ≤ s ≤ 3 * w`), the single width requested from the
rasteriser is `w` when `s = w` and `w / 3` when `s > w`. -/
theorem CalculateBuffer_width_between {U A : Type} (env : Env U A) (h : Heap)
    (msg : FileMessage) (prefs : UserPreferences) (w s : Int) (uiMsg : U) (hw : 2 ≤ w)
    (hb : prefs.BareMessageView = false) (hd : prefs.DisableImages = false)
    (hl : len h msg.imageData ≠ 0)
    (hs : (env.DecodeConfig (h.read msg.imageData)).1.Width = s)
    (hlo : w ≤ s) :
    requestedWidths (CalculateBuffer env h msg prefs w uiMsg).2 =
      [if s = w then w else w / 3] := by
  rw [CalculateBuffer_requested env h msg prefs w uiMsg hw hb hd hl, hs]
  by_cases h1 : s = w
  · rw [if_neg (by omega), if_pos h1, h1]
  · rw [if_pos (by omega), if_neg h1]

/-- C8 amended, at inputs: at target width 30, a 30 pixel wide image is
requested at width 30 and a 90 pixel wide one at width 10. -/
theorem CalculateBuffer_width_between_witness :
    requestedWidths (CalculateBuffer demoEnv [[1, 30, 30]]
        { demoImage with imageData := some 0 } demoPrefs 30 ()).2 = [30]
      ∧ requestedWidths (CalculateBuffer demoEnv [[1, 90, 30]]
        { demoImage with imageData := some 0 } demoPrefs 30 ()).2 = [10] :=
  ⟨CalculateBuffer_width_between demoEnv [[1, 30, 30]]
      { demoImage with imageData := some 0 } demoPrefs 30 30 () (by decide) rfl rfl
      (by decide) (by decide) (by decide),
    CalculateBuffer_width_between demoEnv [[1, 90, 30]]
      { demoImage with imageData := some 0 } demoPrefs 30 90 () (by decide) rfl rfl
      (by decide) (by decide) (by decide)⟩

/-- C9: for a width of at least 2, both options off and a non-empty byte buffer
that the rasteriser cannot decode, at whatever size it is asked for and whatever
`DecodeConfig` reported, `CalculateBuffer` sets the cached layout to the single
row "Failed to display image" with red foreground in every cell, `Height()` is
1, the bytes stay in place, and a second call on the resulting message gives the
same message and the same calls. -/
theorem CalculateBuffer_decode_failure {U A : Type} (env : Env U A) (h : Heap)
    (msg : FileMessage) (prefs : UserPreferences) (w : Int) (uiMsg : U) (hw : 2 ≤ w)
    (hb : prefs.BareMessageView = false) (hd : prefs.DisableImages = false)
    (hl : len h msg.imageData ≠ 0)
    (hrej : ∀ (y x : Int) (bg : BgColor),
      ∃ e, env.NewScaledFromReader (h.read msg.imageData) y x bg = .error e) :
    (CalculateBuffer env h msg prefs w uiMsg).1.buffer =
        [NewColorTString "Failed to display image" Color.ColorRed]
      ∧ (∀ row ∈ (CalculateBuffer env h msg prefs w uiMsg).1.buffer,
          row.map (fun c => c.Char) = "Failed to display image".toList
            ∧ ∀ c ∈ row, c.Style.fg = Color.ColorRed)
      ∧ Height (CalculateBuffer env h msg prefs w uiMsg).1 = 1
      ∧ (CalculateBuffer env h msg prefs w uiMsg).1.imageData = msg.imageData
      ∧ CalculateBuffer env h (CalculateBuffer env h msg prefs w uiMsg).1 prefs w uiMsg =
          CalculateBuffer env h msg prefs w uiMsg := by
  have hw2 : ¬ w < 2 := by omega
  have step : ∀ m : FileMessage, m.imageData = msg.imageData →
      (CalculateBuffer env h m prefs w uiMsg).1 =
          { m with buffer := [NewColorTString "Failed to display image" Color.ColorRed] }
        ∧ (CalculateBuffer env h m prefs w uiMsg).2 =
            (CalculateBuffer env h msg prefs w uiMsg).2 := by
    intro m hm
    simp only [CalculateBuffer, hw2, hb, hd, hl, hm, if_false, Bool.false_eq_true, or_self]
    obtain ⟨e, he⟩ := hrej 0
      (if (env.DecodeConfig (h.read msg.imageData)).1.Width > w then w.tdiv 3
        else (env.DecodeConfig (h.read msg.imageData)).1.Width) BgColor.Black
    rw [he]
    exact ⟨rfl, rfl⟩
  have e1 := (step msg rfl).1
  have hrow : ∀ row ∈ [NewColorTString "Failed to display image" Color.ColorRed],
      row.map (fun c => c.Char) = "Failed to display image".toList
        ∧ ∀ c ∈ row, c.Style.fg = Color.ColorRed := by
    decide
  refine ⟨by rw [e1], by rw [e1]; exact hrow, by rw [e1]; rfl, by rw [e1], ?_⟩
  have e2 := step (CalculateBuffer env h msg prefs w uiMsg).1 (by rw [e1])
  refine Prod.ext ?_ e2.2
  rw [e2.1, e1]

/-- C9, at an input: an image message holding the bytes `[7, 7]`, which the
toy decoder rejects, laid out at width 40. -/
theorem CalculateBuffer_decode_failure_witness :
    (CalculateBuffer demoEnv [[7, 7]] { demoImage with imageData := some 0 }
        demoPrefs 40 ()).1.buffer = [NewColorTString "Failed to display image" Color.ColorRed]
      ∧ Height (CalculateBuffer demoEnv [[7, 7]] { demoImage with imageData := some 0 }
        demoPrefs 40 ()).1 = 1 :=
  have key := CalculateBuffer_decode_failure demoEnv [[7, 7]]
    { demoImage with imageData := some 0 } demoPrefs 40 () (by decide) rfl rfl (by decide)
    (fun _ _ _ => ⟨"image: unknown format", rfl⟩)
  ⟨key.1, key.2.2.1⟩

/-- C10: `NotificationContent()` is one of the four fixed strings: "Sent an
image" for the kind Image, "Sent an audio file" for Audio, "Sent a video" for
Video and "Sent a file" for every other kind, File, unknown and empty included;
two messages of the same kind give the same string. -/
theorem NotificationContent_by_kind (msg msg2 : FileMessage)
    (hk : msg2.MsgType = msg.MsgType) :
    NotificationContent msg2 = NotificationContent msg
      ∧ NotificationContent msg ∈
          ["Sent an image", "Sent an audio file", "Sent a video", "Sent a file"]
      ∧ (msg.MsgType = MsgImage → NotificationContent msg = "Sent an image")
      ∧ (msg.MsgType = MsgAudio → NotificationContent msg = "Sent an audio file")
      ∧ (msg.MsgType = MsgVideo → NotificationContent msg = "Sent a video")
      ∧ (msg.MsgType ≠ MsgImage → msg.MsgType ≠ MsgAudio → msg.MsgType ≠ MsgVideo →
          NotificationContent msg = "Sent a file") := by
  refine ⟨by simp only [NotificationContent, hk], ?_, ?_, ?_, ?_, ?_⟩
  · unfold NotificationContent
    split
    · simp
    · split
      · simp
      · split
        · simp
        · split <;> simp
  · intro h1
    simp [NotificationContent, h1]
  · intro h1
    simp [NotificationContent, h1, MsgAudio, MsgImage]
  · intro h1
    simp [NotificationContent, h1, MsgVideo, MsgAudio, MsgImage]
  · intro h1 h2 h3
    simp [NotificationContent, h1, h2, h3]

/-- C10, at inputs: a video message and an image message carrying the video
kind announce the same; a message of the unknown kind "m.sticker" announces a
file. -/
theorem NotificationContent_by_kind_witness :
    NotificationContent { demoImage with MsgType := MsgVideo } = NotificationContent demoVideo
      ∧ NotificationContent demoVideo = "Sent a video"
      ∧ NotificationContent { demoFile with MsgType := "m.sticker" } = "Sent a file" :=
  ⟨(NotificationContent_by_kind demoVideo { demoImage with MsgType := MsgVideo } rfl).1,
    (NotificationContent_by_kind demoVideo demoVideo rfl).2.2.2.2.1 rfl,
    (NotificationContent_by_kind { demoFile with MsgType := "m.sticker" }
      { demoFile with MsgType := "m.sticker" } rfl).2.2.2.2.2
      (by decide) (by decide) (by decide)⟩

end Gomuks
